import Mathlib

/-!
Verification of the OpenStreetMapSpeeds/conflation repository.

This file shallowly embeds the parts of the Python code that the claims
are about, and proves or refutes each claim against the embedding:

* `trace_filter.py` — the GPS-trace filter (`run`): per-sequence
  acceptance checks (minimum total time, ordered timestamps, poor
  measurement fraction, minimum distance, minimum mean speed).
* `conflation/map_matching/valhalla.py` — edge-speed extraction from
  Valhalla map-matching responses (`add_map_matches_for_shape`,
  `classify_density`, `get_type_for_edge`, `has_too_many_unmatched`,
  `add_data_to_map_matches`).
* `conflation/aggregation.py` — aggregation of observations into the
  final config grid (`measurements_to_config`) and the linear
  interpolation / extrapolation engine (`perform_interp_extrap`).

Python floats are modelled as `ℚ` (every comparison and arithmetic
operation the claims depend on is exact at the inputs involved), Python
ints as `ℤ`/`ℕ`, fallible operations (`ZeroDivisionError`, `IndexError`,
`KeyError`) as `Except String`.  The haversine distance (transcendental
trigonometry) is kept abstract: the filter is parametrised over a
distance function `dist`, which is how `haversine` is consumed by
`trace_filter.run`.
-/

namespace Conflation

/-! ## trace_filter.py -/

/-- Configurable constants from the top of `trace_filter.py`. -/
def MINIMUM_MEAN_SPEED : ℚ := 10

def MINIMUM_TOTAL_TIME : ℚ := 120

def MINIMUM_TOTAL_DISTANCE : ℚ := 1000

def MAXIMUM_TIME_BETWEEN_ADJACENT_POINTS : ℚ := 5

def MAXIMUM_SPEED_BETWEEN_ADJACENT_POINTS : ℚ := 160

def MAXIMUM_POOR_MEASUREMENTS_PERCENT : ℚ := 1/4

/-- A trace point: a dict with `lon`, `lat`, `time` keys
(`radius` is optional and never read by the filter). -/
structure TracePoint where
  lon : ℚ
  lat : ℚ
  time : ℚ
deriving DecidableEq

/-- The per-sequence mutable state of the loop body of `trace_filter.run`:
`total_dist`, `num_poor_measurements`, `should_skip_sequence`, `speeds`. -/
structure SeqState where
  total_dist : ℚ
  num_poor : ℕ
  should_skip : Bool
  speeds : List ℚ
deriving DecidableEq

/-- One iteration of the `for i in range(len(sequence) - 1)` loop of
`trace_filter.run`, acting on the pair `(sequence[i], sequence[i+1])`.
`dist` abstracts the `haversine` call. -/
def pairStep (dist : TracePoint → TracePoint → ℚ) (st : SeqState)
    (pq : TracePoint × TracePoint) : SeqState :=
  let d := dist pq.1 pq.2
  let t := pq.2.time - pq.1.time
  -- if t < 0: should_skip_sequence = True (no `continue`, the body goes on)
  let st1 := if t < 0 then { st with should_skip := true } else st
  -- if t == 0: continue
  if t = 0 then st1
  else
    -- if t > MAXIMUM_TIME_BETWEEN_ADJACENT_POINTS: num_poor_measurements += 1
    let st2 := if t > MAXIMUM_TIME_BETWEEN_ADJACENT_POINTS then
        { st1 with num_poor := st1.num_poor + 1 } else st1
    -- total_dist += d
    let st3 := { st2 with total_dist := st2.total_dist + d }
    let v := d / 1000 / t * 3600
    -- if v_kmph > MAXIMUM_SPEED_BETWEEN_ADJACENT_POINTS: num_poor_measurements += 1
    let st4 := if v > MAXIMUM_SPEED_BETWEEN_ADJACENT_POINTS then
        { st3 with num_poor := st3.num_poor + 1 } else st3
    -- speeds.append(v_kmph)
    { st4 with speeds := st4.speeds ++ [v] }

/-- The consecutive pairs `(sequence[i], sequence[i+1])` of a sequence. -/
def consecutivePairs (seq : List TracePoint) : List (TracePoint × TracePoint) :=
  seq.zip seq.tail

/-- State after running the whole pair loop of `trace_filter.run` on one
sequence, starting from `total_dist = 0`, `num_poor_measurements = 0`,
`should_skip_sequence = False`, `speeds = []`. -/
def seqState (dist : TracePoint → TracePoint → ℚ) (seq : List TracePoint) : SeqState :=
  (consecutivePairs seq).foldl (pairStep dist) ⟨0, 0, false, []⟩

/-- `np.array(speeds).mean()`.  For the empty list numpy yields NaN and
`NaN < 10` is false; that case is unreachable in `trace_filter.run`
(reaching the mean check requires total time ≥ 120, hence some pair has a
positive time delta and `speeds` is nonempty), so the `ℚ` junk value
`0 / 0 = 0` is never relied upon. -/
def ratMean (l : List ℚ) : ℚ := l.sum / (l.length : ℚ)

/-- Whether one sequence survives all the checks of the body of the
`for sequence in trace_data` loop of `trace_filter.run` (i.e. is appended
to `filtered_trace_data`).  Callers guarantee `seq ≠ []`
(`sequence[-1]` / `sequence[0]` raise `IndexError` otherwise). -/
def acceptSeq (dist : TracePoint → TracePoint → ℚ) (seq : List TracePoint) : Bool :=
  let firstT := ((seq.head?.map TracePoint.time).getD 0)
  let lastT := ((seq.getLast?.map TracePoint.time).getD 0)
  -- if sequence[-1]['time'] - sequence[0]['time'] < MINIMUM_TOTAL_TIME: continue
  if lastT - firstT < MINIMUM_TOTAL_TIME then false
  else
    let st := seqState dist seq
    -- if should_skip_sequence: continue
    if st.should_skip then false
    -- if num_poor_measurements / len(sequence) > MAXIMUM_POOR_MEASUREMENTS_PERCENT: continue
    else if (st.num_poor : ℚ) / (seq.length : ℚ) > MAXIMUM_POOR_MEASUREMENTS_PERCENT then false
    -- if total_dist < MINIMUM_TOTAL_DISTANCE: continue
    else if st.total_dist < MINIMUM_TOTAL_DISTANCE then false
    -- if np.array(speeds).mean() < MINIMUM_MEAN_SPEED: continue
    else if ratMean st.speeds < MINIMUM_MEAN_SPEED then false
    else true

/-- `trace_filter.run`.  Returns `none` when some sequence is empty (the
Python code raises `IndexError` on `sequence[-1]`), otherwise the
sequences accepted by `acceptSeq`, in input order. -/
def traceFilterRun (dist : TracePoint → TracePoint → ℚ)
    (trace_data : List (List TracePoint)) : Option (List (List TracePoint)) :=
  if trace_data.all (fun s => !s.isEmpty) then
    some (trace_data.filter (acceptSeq dist))
  else
    none

/-- Modelled from the spec: a consecutive pair is flagged "poor" (at most
once) when its time delta exceeds the 5 s gap limit OR its implied speed
exceeds the 160 km/h limit.  This is the spec's reading of the counter,
to be compared with the code's `num_poor_measurements`. -/
def specPairPoor (dist : TracePoint → TracePoint → ℚ) (p q : TracePoint) : Bool :=
  decide (q.time - p.time > MAXIMUM_TIME_BETWEEN_ADJACENT_POINTS) ||
  decide (dist p q / 1000 / (q.time - p.time) * 3600 > MAXIMUM_SPEED_BETWEEN_ADJACENT_POINTS)

/-- Modelled from the spec: the number of consecutive pairs flagged poor,
each pair counted at most once. -/
def specFlaggedPairCount (dist : TracePoint → TracePoint → ℚ) (seq : List TracePoint) : ℕ :=
  ((consecutivePairs seq).filter (fun pq => specPairPoor dist pq.1 pq.2)).length

/-- The number of consecutive pairs whose time delta exceeds the gap
limit (the code's first kind of `num_poor_measurements` increment). -/
def gapPoorCount (seq : List TracePoint) : ℕ :=
  ((consecutivePairs seq).filter
    (fun pq => decide (pq.2.time - pq.1.time > MAXIMUM_TIME_BETWEEN_ADJACENT_POINTS))).length

/-- The number of consecutive pairs with nonzero time delta whose implied
speed exceeds the speed limit (the code's second kind of
`num_poor_measurements` increment). -/
def speedPoorCount (dist : TracePoint → TracePoint → ℚ) (seq : List TracePoint) : ℕ :=
  ((consecutivePairs seq).filter
    (fun pq => decide (¬ pq.2.time - pq.1.time = 0 ∧
      dist pq.1 pq.2 / 1000 / (pq.2.time - pq.1.time) * 3600 >
        MAXIMUM_SPEED_BETWEEN_ADJACENT_POINTS))).length

/-! ## conflation/map_matching/valhalla.py -/

/-- `MAXIMUM_UNMATCHED_PERCENTAGE = 0.25`. -/
def MAXIMUM_UNMATCHED_PERCENTAGE : ℚ := 1/4

/-- `MAXIMUM_SPEED = 160` (km/h). -/
def MAXIMUM_SPEED : ℚ := 160

/-- `DENSITY_CLASSIFICATIONS = ["rural", "suburban", "urban"]`. -/
def DENSITY_CLASSIFICATIONS : List String := ["rural", "suburban", "urban"]

/-- The `end_node` sub-object of a Valhalla edge (the fields read by the
code: `elapsed_time` and `admin_index`). -/
structure EndNode where
  elapsed_time : ℚ
  admin_index : ℕ
deriving DecidableEq

/-- A Valhalla edge object, restricted to the keys the code reads.
`roundabout` and `sign` are optional keys (`"roundabout" in edge`,
`"sign" in edge`), hence `Option`. -/
structure Edge where
  length : ℚ
  density : ℚ
  road_class : String
  use : String
  roundabout : Option Bool
  sign : Option (List String)
  end_node : EndNode
deriving DecidableEq

/-- An entry of the response's `admins` array. -/
structure Admin where
  country_code : String
  state_code : String
deriving DecidableEq

/-- An entry of the response's `matched_points` array (only the `type`
key is read). -/
structure MatchedPoint where
  type : String
deriving DecidableEq

/-- A Valhalla `trace_attributes` JSON response, restricted to the keys
the code reads. -/
structure MMResponse where
  matched_points : List MatchedPoint
  edges : List Edge
  admins : List Admin
deriving DecidableEq

/-- One observation tuple `(density, road_class, type, kph)`; see
`aggregation.MAP_MATCH_COLS`. -/
abbrev EdgeData := String × String × String × ℚ

/-- The `map_matches` dict: country → region → list of observation
tuples.  Python dicts preserve insertion order, so an association list
with append-at-end insertion is a faithful model. -/
abbrev MapMatches := List (String × List (String × List EdgeData))

/-- `classify_density`. -/
def classifyDensity (density : ℚ) : String :=
  if density < 5 then DENSITY_CLASSIFICATIONS.getD 0 ""
  else if density < 11 then DENSITY_CLASSIFICATIONS.getD 1 ""
  else DENSITY_CLASSIFICATIONS.getD 2 ""

/-- `get_type_for_edge`. -/
def getTypeForEdge (edge : Edge) : String :=
  -- 4 special uses (the `uses` dict lookup)
  if edge.use = "driveway" then "driveway"
  else if edge.use = "alley" then "alley"
  else if edge.use = "parking_aisle" then "parking_aisle"
  else if edge.use = "drive_through" then "drive-through"
  -- Roundabout: `"roundabout" in edge and edge["roundabout"]`
  else if edge.roundabout = some true then "roundabout"
  -- Links
  else if edge.use = "ramp" ∨ edge.use = "turn_channel" then
    -- `"sign" in edge and len(edge["sign"])`
    match edge.sign with
    | some (_ :: _) => "link_exiting"
    | _ => "link_turning"
  else "way"

/-- `has_too_many_unmatched`.  Dividing by `len(matched_points)` raises
`ZeroDivisionError` when the list is empty. -/
def hasTooManyUnmatched (matched_points : List MatchedPoint) : Except String Bool :=
  let num_unmatched : ℕ :=
    (matched_points.map (fun mp => if mp.type = "unmatched" then 1 else 0)).sum
  if matched_points.length = 0 then .error "ZeroDivisionError"
  else .ok (decide ((num_unmatched : ℚ) / (matched_points.length : ℚ) >
    MAXIMUM_UNMATCHED_PERCENTAGE))

/-- The inner-dict update of `add_data_to_map_matches`:
`if region not in map_matches[country]: ... = [data] else: append`. -/
def addToRegions (regions : List (String × List EdgeData)) (region : String)
    (data : EdgeData) : List (String × List EdgeData) :=
  match regions with
  | [] => [(region, [data])]
  | (r, ds) :: rest =>
    if r = region then (r, ds ++ [data]) :: rest
    else (r, ds) :: addToRegions rest region data

/-- `add_data_to_map_matches`. -/
def addDataToMapMatches (map_matches : MapMatches) (country region : String)
    (data : EdgeData) : MapMatches :=
  match map_matches with
  | [] => [(country, [(region, [data])])]
  | (c, regions) :: rest =>
    if c = country then (c, addToRegions regions region data) :: rest
    else (c, regions) :: addDataToMapMatches rest country region data

/-- The `for e in resp["edges"][1:-1]` loop body of
`add_map_matches_for_shape`, with `prev_t` and `map_matches` threaded as
state.  A `return` in the Python body is `.ok` with the current state, an
out-of-range `admins` access is `IndexError`. -/
def shapeLoop (admins : List Admin) :
    List Edge → ℚ → MapMatches → Except String MapMatches
  | [], _, map_matches => .ok map_matches
  | e :: rest, prev_t, map_matches =>
    match admins.get? e.end_node.admin_index with
    | none => .error "IndexError"
    | some admin =>
      let road_class := if e.road_class = "service_other" then "service" else e.road_class
      let t := e.end_node.elapsed_time
      let t_elapsed_on_way := t - prev_t
      -- if t < prev_t: return
      if t < prev_t then .ok map_matches
      -- if t == prev_t: continue
      else if t = prev_t then shapeLoop admins rest prev_t map_matches
      else
        let kph := e.length / t_elapsed_on_way * 3600
        -- if kph > MAXIMUM_SPEED: return
        if kph > MAXIMUM_SPEED then .ok map_matches
        else
          let edge_data : EdgeData :=
            (classifyDensity e.density, road_class, getTypeForEdge e, kph)
          shapeLoop admins rest t
            (addDataToMapMatches map_matches admin.country_code admin.state_code edge_data)

/-- `add_map_matches_for_shape`, from the decoded JSON response onward
(the HTTP request and the 400/error handling are external I/O).  Mutation
of `map_matches` in place is modelled by returning the updated dict. -/
def addMapMatchesForShape (resp : MMResponse) (map_matches : MapMatches) :
    Except String MapMatches := do
  let tooMany ← hasTooManyUnmatched resp.matched_points
  if tooMany then return map_matches
  -- prev_t = resp["edges"][0]["end_node"]["elapsed_time"]
  match resp.edges with
  | [] => .error "IndexError"
  | e0 :: _ =>
    -- for e in resp["edges"][1:-1]
    shapeLoop resp.admins ((resp.edges.drop 1).dropLast)
      e0.end_node.elapsed_time map_matches

/-! ## conflation/aggregation.py -/

/-- `EXTRAP_MAX_SPEED = 140`. -/
def EXTRAP_MAX_SPEED : ℤ := 140

/-- `EXTRAP_MIN_SPEED = 10`. -/
def EXTRAP_MIN_SPEED : ℤ := 10

/-- Python 3's built-in `round` to an integer (also numpy's rounding of a
`float64`): round half to even. -/
def pyRound (q : ℚ) : ℤ :=
  let f := ⌊q⌋
  let frac := q - (f : ℚ)
  if frac < 1/2 then f
  else if frac > 1/2 then f + 1
  else if f % 2 = 0 then f else f + 1

/-- `np.interp(x, xp, fp)` on a list of `(xp, fp)` pairs with `xp`
strictly increasing: piecewise linear interpolation, clamped to the end
values outside the data range. -/
def npInterp (x : ℚ) : List (ℚ × ℚ) → ℚ
  | [] => 0
  | [(_, y0)] => y0
  | (x0, y0) :: (x1, y1) :: rest =>
    if x ≤ x0 then y0
    else if x ≤ x1 then y0 + (y1 - y0) * (x - x0) / (x1 - x0)
    else npInterp x ((x1, y1) :: rest)

/-- `[i for i, v in enumerate(speeds) if v is not None]`. -/
def indexesWithData (speeds : List (Option ℤ)) : List ℕ :=
  (speeds.enum.filter (fun p => p.2.isSome)).map (fun p => p.1)

/-- `[v for i, v in enumerate(speeds) if v is not None]`. -/
def valuesWithData (speeds : List (Option ℤ)) : List ℤ :=
  speeds.filterMap id

/-- The `should_skip` scan of `perform_interp_extrap`: true iff some
adjacent pair of present values satisfies
`values_for_indexes_with_data[i - 1] < values_for_indexes_with_data[i]`. -/
def hasIncrease : List ℤ → Bool
  | a :: b :: rest => decide (a < b) || hasIncrease (b :: rest)
  | _ => false

/-- The interpolation pass of `perform_interp_extrap`: fill every `None`
entry strictly between `min(indexes_with_data)` and
`max(indexes_with_data)` with the rounded `np.interp` value.
`indexes_with_data` is ascending, so its min/max are its head/last. -/
def interpPhase (speeds : List (Option ℤ)) : List (Option ℤ) :=
  let idxs := indexesWithData speeds
  let vals := valuesWithData speeds
  let lo := idxs.headD 0
  let hi := idxs.getLastD 0
  let pts := (idxs.map (fun i => (i : ℚ))).zip (vals.map (fun v => (v : ℚ)))
  speeds.mapIdx (fun i v =>
    if v = none ∧ lo < i ∧ i < hi then some (pyRound (npInterp (i : ℚ) pts)) else v)

/-- `speeds[k]` for an in-range index `k` (every loop below only reads
indexes produced by `range(len(speeds))`, so the `none` default is never
relied upon). -/
def getCell (speeds : List (Option ℤ)) (k : ℕ) : Option ℤ :=
  (speeds.get? k).getD none

/-- `speeds[k]` as an integer; only used where the Python code knows the
entry is a filled-in (non-`None`) value, so the `0` default is never
relied upon. -/
def getIntD (speeds : List (Option ℤ)) (k : ℕ) : ℤ :=
  (getCell speeds k).getD 0

/-- The `while len(stack) > 0` pop of the low-end extrapolation:
`speeds[j] = min(speeds[i] - (i - j) * slope, EXTRAP_MAX_SPEED)`. -/
def popLow (v : ℤ) (i : ℕ) (slope : ℤ) (stack : List ℕ)
    (speeds : List (Option ℤ)) : List (Option ℤ) :=
  stack.foldl
    (fun acc j => acc.set j (some (min (v - ((i : ℤ) - (j : ℤ)) * slope) EXTRAP_MAX_SPEED)))
    speeds

/-- The `while len(stack) > 0` pop of the high-end extrapolation:
`speeds[j] = max(speeds[i] + (j - i) * slope, EXTRAP_MIN_SPEED)`. -/
def popHigh (v : ℤ) (i : ℕ) (slope : ℤ) (stack : List ℕ)
    (speeds : List (Option ℤ)) : List (Option ℤ) :=
  stack.foldl
    (fun acc j => acc.set j (some (max (v + ((j : ℤ) - (i : ℤ)) * slope) EXTRAP_MIN_SPEED)))
    speeds

/-- The first extrapolation loop of `perform_interp_extrap`, iterating
over the index list `range(len(speeds))`: push empty indexes until the
first filled one, compute `slope = speeds[i + 1] - speeds[i]`, pop the
stack, `break`.  Falling off the end without a `break` returns the list
as is. -/
def lowExtrapLoop (speeds : List (Option ℤ)) : List ℕ → List ℕ → List (Option ℤ)
  | [], _ => speeds
  | i :: is, stack =>
    match getCell speeds i with
    | none => lowExtrapLoop speeds is (i :: stack)
    | some v => popLow v i (getIntD speeds (i + 1) - v) stack speeds

/-- The second extrapolation loop, iterating over
`range(len(speeds) - 1, -1, -1)`; `slope = speeds[i] - speeds[i - 1]`. -/
def highExtrapLoop (speeds : List (Option ℤ)) : List ℕ → List ℕ → List (Option ℤ)
  | [], _ => speeds
  | i :: is, stack =>
    match getCell speeds i with
    | none => highExtrapLoop speeds is (i :: stack)
    | some v => popHigh v i (v - getIntD speeds (i - 1)) stack speeds

/-- The body of the `for density / for type_` loops of
`perform_interp_extrap`, acting on one `(density, type)` speeds array. -/
def interpExtrapArray (speeds : List (Option ℤ)) : List (Option ℤ) :=
  let idxs := indexesWithData speeds
  let vals := valuesWithData speeds
  -- If there is only one data point, there is no way to inter/extrapolate, so skip
  if idxs.length < 2 then speeds
  -- Check to make sure that the values are monotonically increasing with higher road classes
  else if hasIncrease vals then speeds
  else
    let interped := interpPhase speeds
    let afterLow := lowExtrapLoop interped (List.range speeds.length) []
    -- the shared `stack` is empty again when the second loop starts
    highExtrapLoop afterLow (List.range speeds.length).reverse []

/-- One density's sub-config of the schema config (`BASE_CONFIG` values). -/
structure DensityConfig where
  way : List (Option ℤ)
  link_exiting : List (Option ℤ)
  link_turning : List (Option ℤ)
  roundabout : List (Option ℤ)
  driveway : Option ℤ
  alley : Option ℤ
  parking_aisle : Option ℤ
  drive_through : Option ℤ
deriving DecidableEq

/-- The schema config built by `measurements_to_config` (`iso3166-1` /
`iso3166-2` are deleted when `None`, hence `Option`). -/
structure Config where
  iso3166_1 : Option String
  iso3166_2 : Option String
  rural : DensityConfig
  suburban : DensityConfig
  urban : DensityConfig
deriving DecidableEq

/-- One density block of `BASE_CONFIG`: all values `None`. -/
def baseDensityConfig : DensityConfig :=
  { way := [none, none, none, none, none, none, none, none]
    link_exiting := [none, none, none, none, none]
    link_turning := [none, none, none, none, none]
    roundabout := [none, none, none, none, none, none, none, none]
    driveway := none
    alley := none
    parking_aisle := none
    drive_through := none }

/-- `BASE_CONFIG`. -/
def baseConfig : Config :=
  { iso3166_1 := none
    iso3166_2 := none
    rural := baseDensityConfig
    suburban := baseDensityConfig
    urban := baseDensityConfig }

/-- `ROAD_CLASS_INDEX_MAPPING` as an association list. -/
def roadClassIndexList : List (String × ℕ) :=
  [("motorway", 0), ("trunk", 1), ("primary", 2), ("secondary", 3),
   ("tertiary", 4), ("unclassified", 5), ("residential", 6), ("service", 7)]

/-- Lookup in `ROAD_CLASS_INDEX_MAPPING` (`none` models a `KeyError`). -/
def lookupRoadClass (road_class : String) : Option ℕ :=
  (roadClassIndexList.find? (fun p => p.1 = road_class)).map (fun p => p.2)

/-- `config[density]`, a `KeyError` for an unknown density name. -/
def getDensityConf (c : Config) (density : String) : Except String DensityConfig :=
  if density = "rural" then .ok c.rural
  else if density = "suburban" then .ok c.suburban
  else if density = "urban" then .ok c.urban
  else .error "KeyError"

/-- `config[density] = d` for a known density name. -/
def updateDensity (c : Config) (density : String)
    (f : DensityConfig → Except String DensityConfig) : Except String Config :=
  if density = "rural" then (f c.rural).map (fun d => { c with rural := d })
  else if density = "suburban" then (f c.suburban).map (fun d => { c with suburban := d })
  else if density = "urban" then (f c.urban).map (fun d => { c with urban := d })
  else .error "KeyError"

/-- `config[density][type_][idx] = kph` for the four array-valued types
(the arrays come from `BASE_CONFIG`, so `idx` is always in range and
`List.set`'s out-of-range no-op is never relied upon). -/
def setArrayEntry (d : DensityConfig) (ty : String) (idx : ℕ) (kph : ℤ) :
    Except String DensityConfig :=
  if ty = "way" then .ok { d with way := d.way.set idx (some kph) }
  else if ty = "roundabout" then .ok { d with roundabout := d.roundabout.set idx (some kph) }
  else if ty = "link_exiting" then
    .ok { d with link_exiting := d.link_exiting.set idx (some kph) }
  else if ty = "link_turning" then
    .ok { d with link_turning := d.link_turning.set idx (some kph) }
  else .error "KeyError"

/-- `config[density][type_] = kph` for the four scalar types. -/
def setScalarEntry (d : DensityConfig) (ty : String) (kph : ℤ) :
    Except String DensityConfig :=
  if ty = "driveway" then .ok { d with driveway := some kph }
  else if ty = "alley" then .ok { d with alley := some kph }
  else if ty = "parking_aisle" then .ok { d with parking_aisle := some kph }
  else if ty = "drive-through" then .ok { d with drive_through := some kph }
  else .error "KeyError"

/-- The body of the `for idx, kph in df.iterrows()` loop of
`measurements_to_config`, for one grouped row `(density, road_class,
type_)` with median speed `kphMedian`.  Mirrors the Python `elif` chain,
including the short-circuit `type_.startswith("link_") and
ROAD_CLASS_INDEX_MAPPING[road_class] < 5` (a failed `< 5` falls through
to the remaining `elif`s). -/
def applyRow (c : Config) (density road_class ty : String) (kphMedian : ℚ) :
    Except String Config :=
  -- Round the kph to the nearest whole number, any sig figs is just noise.
  let kph := pyRound kphMedian
  if ty = "way" ∨ ty = "roundabout" then
    match lookupRoadClass road_class with
    | none => .error "KeyError"
    | some idx => updateDensity c density (fun d => setArrayEntry d ty idx kph)
  else if ty.startsWith "link_" then
    match lookupRoadClass road_class with
    | none => .error "KeyError"
    | some idx =>
      if idx < 5 then updateDensity c density (fun d => setArrayEntry d ty idx kph)
      else if ty = "driveway" ∨ ty = "alley" ∨ ty = "parking_aisle" ∨ ty = "drive-through" then
        updateDensity c density (fun d => setScalarEntry d ty kph)
      else .ok c  -- logging.warning("Type {} not supported")
  else if ty = "driveway" ∨ ty = "alley" ∨ ty = "parking_aisle" ∨ ty = "drive-through" then
    updateDensity c density (fun d => setScalarEntry d ty kph)
  else .ok c  -- logging.warning("Type {} not supported")

/-- `df.groupby(...).median()`'s median of one group (pandas: middle
element of the sorted values for odd length, mean of the two middle
elements for even length; groups are nonempty by construction). -/
def pdMedian (l : List ℚ) : ℚ :=
  let sorted := l.mergeSort (fun a b => decide (a ≤ b))
  let n := l.length
  if n = 0 then 0
  else if n % 2 = 1 then sorted.getD (n / 2) 0
  else (sorted.getD (n / 2 - 1) 0 + sorted.getD (n / 2) 0) / 2

/-- `perform_interp_extrap` applied to one density block
(`TYPES_TO_LINEAR_INTERP = [way, link_exiting, link_turning, roundabout]`). -/
def interpExtrapDensity (d : DensityConfig) : DensityConfig :=
  { d with
    way := interpExtrapArray d.way
    link_exiting := interpExtrapArray d.link_exiting
    link_turning := interpExtrapArray d.link_turning
    roundabout := interpExtrapArray d.roundabout }

/-- `perform_interp_extrap`
(`DENSITIES_TO_LINEAR_INTERP = [rural, suburban, urban]`). -/
def performInterpExtrap (c : Config) : Config :=
  { c with
    rural := interpExtrapDensity c.rural
    suburban := interpExtrapDensity c.suburban
    urban := interpExtrapDensity c.urban }

/-! ## Theorems -/

/-- **C5**: for the concrete input array
`[None, None, 55, 45, None, 30, None, None]` (a density's `way` array,
indices 0..7), the interpolation/extrapolation engine produces exactly
`[75, 65, 55, 45, 38, 30, 22, 14]`: index 4 is piecewise-linearly
interpolated to 38, indices 0 and 1 are extrapolated from the slope at
the low end, and indices 6 and 7 are extrapolated using the slope between
the last present index and its (interpolated) predecessor. -/
theorem interpExtrap_way_example :
    interpExtrapArray [none, none, some 55, some 45, none, some 30, none, none] =
      [some 75, some 65, some 55, some 45, some 38, some 30, some 22, some 14] := by
  with_unfolding_all decide

/-- **C6**: `classify_density` is total over its numeric input and
returns exactly one of `rural`, `suburban`, `urban`, partitioning by
half-open intervals: `< 5` gives rural, `5 ≤ · < 11` gives suburban,
`≥ 11` gives urban; the boundary inputs 5 and 11 give suburban and urban
respectively. -/
theorem classifyDensity_partition (d : ℚ) :
    (classifyDensity d = "rural" ↔ d < 5) ∧
    (classifyDensity d = "suburban" ↔ 5 ≤ d ∧ d < 11) ∧
    (classifyDensity d = "urban" ↔ 11 ≤ d) ∧
    classifyDensity (5 : ℚ) = "suburban" ∧ classifyDensity (11 : ℚ) = "urban" := by
  refine ⟨?_, ?_, ?_, by with_unfolding_all decide, by with_unfolding_all decide⟩ <;>
    · unfold classifyDensity DENSITY_CLASSIFICATIONS
      split_ifs with h1 h2 <;> simp_all <;>
        first
          | linarith
          | (intro h; linarith)
          | (constructor <;> linarith)
          | (constructor <;> intro h <;> linarith)

/-- **C2 (counterexample)**: the claim says that two equal consecutive
present values make the engine skip the array and return it unchanged.
On `[None, 50, 50, None, None]` the consecutive present values `50, 50`
are not strictly decreasing, yet the engine fills the array (the code's
guard only fires on a strict increase). -/
theorem interpExtrap_equal_values_filled :
    ¬ (50 : ℤ) < 50 ∧
    interpExtrapArray [none, some 50, some 50, none, none] =
      [some 50, some 50, some 50, some 50, some 50] ∧
    interpExtrapArray [none, some 50, some 50, none, none] ≠
      [none, some 50, some 50, none, none] := by
  refine ⟨by decide, by with_unfolding_all decide, by with_unfolding_all decide⟩

/-- **C2 (amended)**: for every speed array with at least 2 present
values, if some later present value is strictly *greater* than the
immediately preceding present value, the engine skips that array
entirely — no interpolation, no extrapolation, the array is returned
unchanged.  (Equal consecutive present values do not trigger the skip.) -/
theorem interpExtrap_skips_on_increase (speeds : List (Option ℤ))
    (h2 : 2 ≤ (indexesWithData speeds).length)
    (hg : hasIncrease (valuesWithData speeds) = true) :
    interpExtrapArray speeds = speeds := by
  unfold interpExtrapArray
  have hlt : ¬ (indexesWithData speeds).length < 2 := by omega
  simp [hlt, hg]

/-- Witness for `interpExtrap_skips_on_increase` at a concrete input. -/
theorem interpExtrap_skips_on_increase_witness :
    interpExtrapArray [some 20, some 30, none, none, none] =
      [some 20, some 30, none, none, none] :=
  interpExtrap_skips_on_increase [some 20, some 30, none, none, none]
    (by with_unfolding_all decide) (by decide)

/-- **C4 (counterexample)**: the claim says every entry filled by
extrapolation is at least 10.  On `[None, 5, 4, None, None]` the
low-end extrapolation fills index 0 with `min(5 - 1·(4-5), 140) = 6`,
which is below the claimed floor of 10 (the `EXTRAP_MIN_SPEED` floor is
only applied at the high-index end). -/
theorem interpExtrap_low_end_below_floor :
    interpExtrapArray [none, some 5, some 4, none, none] =
      [some 6, some 5, some 4, some 10, some 10] ∧
    (6 : ℤ) < EXTRAP_MIN_SPEED := by
  refine ⟨by with_unfolding_all decide, by decide⟩

/-- A concrete map-matching response whose second interior edge implies
600 km/h: the first interior edge contributes a tuple before the abort. -/
def fastEdgeResp : MMResponse :=
  { matched_points := [⟨"matched"⟩]
    edges :=
      [ { length := 0, density := 0, road_class := "primary", use := "road",
          roundabout := none, sign := none, end_node := ⟨0, 0⟩ }
      , { length := 1, density := 0, road_class := "primary", use := "road",
          roundabout := none, sign := none, end_node := ⟨60, 0⟩ }
      , { length := 10, density := 0, road_class := "primary", use := "road",
          roundabout := none, sign := none, end_node := ⟨120, 0⟩ }
      , { length := 1, density := 0, road_class := "primary", use := "road",
          roundabout := none, sign := none, end_node := ⟨180, 0⟩ } ]
    admins := [⟨"US", "PA"⟩] }

/-- **C1 (counterexample)**: the claim says an abort (here: the second
interior edge of `fastEdgeResp` implies `10/60·3600 = 600 > 160` km/h)
discards all tuples gathered from earlier interior edges and leaves the
map-matches collection unchanged.  In fact the tuple of the first
interior edge (60 km/h on a rural primary way) was already added in
place and survives the abort: starting from the empty collection, the
result is a singleton collection, not the empty one. -/
theorem addMapMatches_abort_keeps_earlier_tuples :
    addMapMatchesForShape fastEdgeResp [] =
      .ok [("US", [("PA", [("rural", "primary", "way", (60 : ℚ))])])] ∧
    (10 : ℚ) / 60 * 3600 > MAXIMUM_SPEED ∧
    ([("US", [("PA", [("rural", "primary", "way", (60 : ℚ))])])] : MapMatches) ≠ [] := by
  refine ⟨by with_unfolding_all rfl, by with_unfolding_all decide, by simp⟩

/-- **C1 (amended)**: when an interior edge has end elapsed time strictly
below the running previous elapsed time, or implies a speed strictly
above 160 km/h, extraction for the response stops at that edge: the
remaining interior edges are not processed and the loop returns the
map-matches collection *as accumulated so far* — tuples already added
from earlier interior edges are retained, not discarded. -/
theorem shapeLoop_abort_returns_accumulated (admins : List Admin) (e : Edge)
    (rest : List Edge) (prev_t : ℚ) (mm : MapMatches)
    (ha : e.end_node.admin_index < admins.length)
    (habort : e.end_node.elapsed_time < prev_t ∨
      (prev_t < e.end_node.elapsed_time ∧
        e.length / (e.end_node.elapsed_time - prev_t) * 3600 > MAXIMUM_SPEED)) :
    shapeLoop admins (e :: rest) prev_t mm = .ok mm := by
  obtain ⟨a, hget⟩ : ∃ a, admins.get? e.end_node.admin_index = some a :=
    ⟨_, List.get?_eq_get ha⟩
  unfold shapeLoop
  rw [hget]
  rcases habort with h | ⟨h1, h2⟩
  · simp only [if_pos h]
  · have hlt : ¬ e.end_node.elapsed_time < prev_t := by linarith
    have hne : ¬ e.end_node.elapsed_time = prev_t := by
      intro h; rw [h] at h1; exact lt_irrefl _ h1
    simp only [if_neg hlt, if_neg hne, if_pos h2]

/-- Witness for `shapeLoop_abort_returns_accumulated` at a concrete
input: a single interior edge with non-monotonic elapsed time. -/
theorem shapeLoop_abort_returns_accumulated_witness :
    shapeLoop [⟨"FR", "IDF"⟩]
      [{ length := 1, density := 0, road_class := "primary", use := "road",
         roundabout := none, sign := none, end_node := ⟨5, 0⟩ }] 10
      [("FR", [("IDF", [("rural", "primary", "way", (50 : ℚ))])])] =
      .ok [("FR", [("IDF", [("rural", "primary", "way", (50 : ℚ))])])] :=
  shapeLoop_abort_returns_accumulated [⟨"FR", "IDF"⟩] _ [] 10 _
    (by decide) (Or.inl (by with_unfolding_all decide))

/-- The `sum([1 if ... else 0])` count of unmatched points equals the
length of the filtered list. -/
lemma unmatched_sum_eq_filter_length (mps : List MatchedPoint) :
    ((mps.map (fun mp => if mp.type = "unmatched" then 1 else 0)).sum : ℕ) =
      (mps.filter (fun mp => mp.type = "unmatched")).length := by
  induction mps with
  | nil => rfl
  | cons mp rest ih =>
    by_cases hmp : mp.type = "unmatched" <;> simp [List.filter_cons, hmp, ih] <;> omega

/-- **C10**: for a response with an empty `matched_points` list, the
unmatched-fraction check divides by `len(matched_points)` without a
guard, so extraction raises `ZeroDivisionError` rather than discarding
the response or returning tuples; for a nonempty list the check computes
whether the unmatched fraction strictly exceeds 25%. -/
theorem hasTooManyUnmatched_empty_divzero :
    hasTooManyUnmatched [] = .error "ZeroDivisionError" ∧
    (∀ (edges : List Edge) (admins : List Admin) (mm : MapMatches),
      addMapMatchesForShape ⟨[], edges, admins⟩ mm = .error "ZeroDivisionError") ∧
    (∀ mps : List MatchedPoint, mps ≠ [] →
      hasTooManyUnmatched mps =
        .ok (decide (((mps.filter (fun mp => mp.type = "unmatched")).length : ℚ) /
          (mps.length : ℚ) > MAXIMUM_UNMATCHED_PERCENTAGE))) := by
  refine ⟨rfl, fun edges admins mm => rfl, fun mps h => ?_⟩
  unfold hasTooManyUnmatched
  rw [if_neg (by simpa using h), unmatched_sum_eq_filter_length mps]

/-- Witness for `hasTooManyUnmatched_empty_divzero`: the nonempty branch
at a concrete one-point list. -/
theorem hasTooManyUnmatched_empty_divzero_witness :
    hasTooManyUnmatched [⟨"matched"⟩] = .ok false := by
  rw [hasTooManyUnmatched_empty_divzero.2.2 [⟨"matched"⟩] (by simp)]
  have hdec : (decide ((((([⟨"matched"⟩] : List MatchedPoint).filter
      (fun mp => mp.type = "unmatched")).length : ℚ)) /
      ((([⟨"matched"⟩] : List MatchedPoint).length : ℚ)) >
        MAXIMUM_UNMATCHED_PERCENTAGE)) = false := by
    with_unfolding_all decide
  rw [hdec]

/-- **C8**: `classify_type` (`get_type_for_edge`) evaluates in fixed
precedence order: a special use returns that use's name with
`drive_through` mapped to the hyphenated `drive-through`; otherwise a set
roundabout flag returns `roundabout`; otherwise use `ramp`/`turn_channel`
returns `link_exiting` exactly when the edge carries a non-empty sign
list and `link_turning` otherwise; otherwise `way`. -/
theorem getTypeForEdge_precedence (e : Edge) :
    (e.use = "driveway" → getTypeForEdge e = "driveway") ∧
    (e.use = "alley" → getTypeForEdge e = "alley") ∧
    (e.use = "parking_aisle" → getTypeForEdge e = "parking_aisle") ∧
    (e.use = "drive_through" → getTypeForEdge e = "drive-through") ∧
    (e.use ≠ "driveway" → e.use ≠ "alley" → e.use ≠ "parking_aisle" →
      e.use ≠ "drive_through" → e.roundabout = some true →
        getTypeForEdge e = "roundabout") ∧
    (e.use ≠ "driveway" → e.use ≠ "alley" → e.use ≠ "parking_aisle" →
      e.use ≠ "drive_through" → e.roundabout ≠ some true →
      (e.use = "ramp" ∨ e.use = "turn_channel") →
        (((∃ l, e.sign = some l ∧ l ≠ []) → getTypeForEdge e = "link_exiting") ∧
         ((¬ ∃ l, e.sign = some l ∧ l ≠ []) → getTypeForEdge e = "link_turning"))) ∧
    (e.use ≠ "driveway" → e.use ≠ "alley" → e.use ≠ "parking_aisle" →
      e.use ≠ "drive_through" → e.roundabout ≠ some true →
      e.use ≠ "ramp" → e.use ≠ "turn_channel" → getTypeForEdge e = "way") := by
  unfold getTypeForEdge
  refine ⟨fun h => ?_, fun h => ?_, fun h => ?_, fun h => ?_,
    fun h1 h2 h3 h4 h5 => ?_, fun h1 h2 h3 h4 h5 h6 => ⟨fun h7 => ?_, fun h7 => ?_⟩,
    fun h1 h2 h3 h4 h5 h6 h7 => ?_⟩ <;>
    simp_all
  · -- link_exiting: the sign list is nonempty
    obtain ⟨l, hl, hne⟩ := h7
    rcases l with _ | ⟨s, l⟩
    · exact absurd rfl hne
    · rcases h6 with h6 | h6 <;> simp_all
  · -- link_turning: no non-empty sign list
    rcases h6 with h6 | h6 <;>
      rcases hs : e.sign with _ | ⟨_ | ⟨s, l⟩⟩ <;> simp_all

/-- `config[density][type_]` for the four array-valued types, as read
back out of the grid. -/
def getTypeArray (c : Config) (density ty : String) : Option (List (Option ℤ)) :=
  ((getDensityConf c density).toOption).bind (fun d =>
    if ty = "way" then some d.way
    else if ty = "roundabout" then some d.roundabout
    else if ty = "link_exiting" then some d.link_exiting
    else if ty = "link_turning" then some d.link_turning
    else none)

/-- **C7**: for every group of observations, the aggregator fills a grid
slot with the group's median rounded to the nearest integer; for
`link_exiting`/`link_turning` it writes the slot only when the road-class
rank is strictly below 5, and a link group with rank 5 or higher is
ignored without an error and without modifying the grid. -/
theorem applyRow_link_median (c : Config) (density road_class ty : String)
    (obs : List ℚ) (r : ℕ)
    (hr : lookupRoadClass road_class = some r)
    (hty : ty = "link_exiting" ∨ ty = "link_turning")
    (hden : density = "rural" ∨ density = "suburban" ∨ density = "urban") :
    (r < 5 → (applyRow c density road_class ty (pdMedian obs)).map
        (fun c' => getTypeArray c' density ty) =
      .ok ((getTypeArray c density ty).map
        (fun a => a.set r (some (pyRound (pdMedian obs)))))) ∧
    (5 ≤ r → applyRow c density road_class ty (pdMedian obs) = .ok c) := by
  have hsw1 : ("link_exiting".startsWith "link_") = true := by with_unfolding_all rfl
  have hsw2 : ("link_turning".startsWith "link_") = true := by with_unfolding_all rfl
  constructor
  · intro hlt
    rcases hty with rfl | rfl <;> rcases hden with rfl | rfl | rfl <;>
      simp [applyRow, hr, hlt, updateDensity, setArrayEntry, getTypeArray,
        getDensityConf, hsw1, hsw2, Except.map, Except.toOption]
  · intro hge
    have hlt : ¬ r < 5 := by omega
    rcases hty with rfl | rfl <;>
      simp [applyRow, hr, hlt, hsw1, hsw2]

/-- Witness for `applyRow_link_median`: a concrete `link_turning` group
on the base config with road class `secondary` (rank 3) and observations
`[30, 41]` (median `35.5`, rounded 36). -/
theorem applyRow_link_median_witness :
    (3 < 5 → (applyRow baseConfig "urban" "secondary" "link_turning"
        (pdMedian [30, 41])).map (fun c' => getTypeArray c' "urban" "link_turning") =
      .ok ((getTypeArray baseConfig "urban" "link_turning").map
        (fun a => a.set 3 (some (pyRound (pdMedian [30, 41])))))) ∧
    (5 ≤ 3 → applyRow baseConfig "urban" "secondary" "link_turning"
        (pdMedian [30, 41]) = .ok baseConfig) :=
  applyRow_link_median baseConfig "urban" "secondary" "link_turning" [30, 41] 3
    (by decide) (Or.inr rfl) (Or.inr (Or.inr rfl))

/-- A distance model for the counterexample sequences: 800 m across a
long time gap, 150 m otherwise. -/
def cexDist : TracePoint → TracePoint → ℚ :=
  fun p q => if 5 < q.time - p.time then 800 else 150

/-- A 4-point sequence with one poor pair (time gap 111 s) out of 3
consecutive pairs; all other checks pass. -/
def cexSeq : List TracePoint :=
  [⟨0, 0, 0⟩, ⟨0, 0, 5⟩, ⟨0, 0, 116⟩, ⟨0, 0, 120⟩]

/-- **C3 (counterexample)**: the claim predicts rejection exactly when
(poor pairs)/(pairs) > 25%.  On `cexSeq` exactly 1 of 3 consecutive
pairs is poor (1/3 > 1/4), so the claim predicts rejection — but the
code divides by the number of *points* (`len(sequence) = 4`), gets
`1/4 ≤ 1/4`, and accepts the sequence. -/
theorem traceFilter_poor_fraction_denominator :
    (specFlaggedPairCount cexDist cexSeq : ℚ) /
        (((cexSeq.length : ℚ)) - 1) > MAXIMUM_POOR_MEASUREMENTS_PERCENT ∧
    acceptSeq cexDist cexSeq = true := by
  constructor
  · with_unfolding_all decide
  · with_unfolding_all decide

/-- The `num_poor_measurements` counter after the pair loop is the
number of pairs over the gap limit *plus* the number of pairs over the
speed limit: a pair violating both is counted twice. -/
lemma numPoor_characterization (dist : TracePoint → TracePoint → ℚ)
    (pairs : List (TracePoint × TracePoint)) (st : SeqState) :
    (pairs.foldl (pairStep dist) st).num_poor =
      st.num_poor +
      (pairs.filter
        (fun pq => decide (pq.2.time - pq.1.time > MAXIMUM_TIME_BETWEEN_ADJACENT_POINTS))).length +
      (pairs.filter
        (fun pq => decide (¬ pq.2.time - pq.1.time = 0 ∧
          dist pq.1 pq.2 / 1000 / (pq.2.time - pq.1.time) * 3600 >
            MAXIMUM_SPEED_BETWEEN_ADJACENT_POINTS))).length := by
  induction pairs generalizing st with
  | nil => simp
  | cons pq rest ih =>
    by_cases h0 : pq.2.time - pq.1.time = 0
    · have hgap : ¬ pq.2.time - pq.1.time > MAXIMUM_TIME_BETWEEN_ADJACENT_POINTS := by
        rw [h0]; unfold MAXIMUM_TIME_BETWEEN_ADJACENT_POINTS; norm_num
      have hg : decide (pq.2.time - pq.1.time > MAXIMUM_TIME_BETWEEN_ADJACENT_POINTS) = false :=
        decide_eq_false hgap
      have hs : decide (¬ pq.2.time - pq.1.time = 0 ∧
          dist pq.1 pq.2 / 1000 / (pq.2.time - pq.1.time) * 3600 >
            MAXIMUM_SPEED_BETWEEN_ADJACENT_POINTS) = false :=
        decide_eq_false (by simp [h0])
      simp only [List.foldl_cons, List.filter_cons, hg, hs, Bool.false_eq_true, if_false]
      rw [ih]
      unfold pairStep
      by_cases hneg : pq.2.time - pq.1.time < 0 <;> simp [h0, hneg]
    · by_cases hgap : pq.2.time - pq.1.time > MAXIMUM_TIME_BETWEEN_ADJACENT_POINTS <;>
        by_cases hspd : dist pq.1 pq.2 / 1000 / (pq.2.time - pq.1.time) * 3600 >
            MAXIMUM_SPEED_BETWEEN_ADJACENT_POINTS <;>
        [skip; skip; skip; skip] <;>
        · first
            | (have hg : decide (pq.2.time - pq.1.time >
                  MAXIMUM_TIME_BETWEEN_ADJACENT_POINTS) = true := decide_eq_true hgap)
            | (have hg : decide (pq.2.time - pq.1.time >
                  MAXIMUM_TIME_BETWEEN_ADJACENT_POINTS) = false := decide_eq_false hgap)
          first
            | (have hs : decide (¬ pq.2.time - pq.1.time = 0 ∧
                  dist pq.1 pq.2 / 1000 / (pq.2.time - pq.1.time) * 3600 >
                    MAXIMUM_SPEED_BETWEEN_ADJACENT_POINTS) = true :=
                decide_eq_true ⟨h0, hspd⟩)
            | (have hs : decide (¬ pq.2.time - pq.1.time = 0 ∧
                  dist pq.1 pq.2 / 1000 / (pq.2.time - pq.1.time) * 3600 >
                    MAXIMUM_SPEED_BETWEEN_ADJACENT_POINTS) = false :=
                decide_eq_false (by simp [h0, hspd]))
          simp only [List.foldl_cons, List.filter_cons, hg, hs, if_true, if_false,
            Bool.false_eq_true, List.length_cons]
          rw [ih]
          unfold pairStep
          by_cases hneg : pq.2.time - pq.1.time < 0 <;>
            simp [h0, hneg, hgap, hspd] <;> omega

/-- **C3 (amended)**: assuming the other rejection criteria pass (total
time, timestamp order, total distance, mean speed), the filter accepts a
sequence exactly when `num_poor_measurements / len(sequence)` is at most
25%, where the counter adds one for each pair over the 5 s gap limit and
one for each pair over the 160 km/h speed limit (a pair violating both
counts twice) and the denominator is the number of *points*, not pairs;
exactly 25% is accepted (strict `>` rejection). -/
theorem traceFilter_poor_fraction_amended (dist : TracePoint → TracePoint → ℚ)
    (seq : List TracePoint)
    (h1 : ¬ ((seq.getLast?.map TracePoint.time).getD 0 -
      (seq.head?.map TracePoint.time).getD 0 < MINIMUM_TOTAL_TIME))
    (h2 : (seqState dist seq).should_skip = false)
    (h3 : ¬ ((seqState dist seq).total_dist < MINIMUM_TOTAL_DISTANCE))
    (h4 : ¬ (ratMean (seqState dist seq).speeds < MINIMUM_MEAN_SPEED)) :
    acceptSeq dist seq = true ↔
      ((gapPoorCount seq + speedPoorCount dist seq : ℕ) : ℚ) / (seq.length : ℚ) ≤
        MAXIMUM_POOR_MEASUREMENTS_PERCENT := by
  have hnum : (seqState dist seq).num_poor = gapPoorCount seq + speedPoorCount dist seq := by
    unfold seqState gapPoorCount speedPoorCount
    rw [numPoor_characterization]
    simp
  unfold acceptSeq
  rw [if_neg h1]
  simp only [h2, Bool.false_eq_true, if_false, if_neg h3, if_neg h4, hnum]
  constructor
  · intro h
    by_contra hgt
    rw [if_pos (by push_cast; push_cast at hgt; linarith)] at h
    exact Bool.false_ne_true h
  · intro h
    rw [if_neg (by push_cast; push_cast at h; linarith)]

/-- Witness for `traceFilter_poor_fraction_amended`: a 5-point sequence
with one poor pair; `1/5 ≤ 1/4`, so it is accepted. -/
theorem traceFilter_poor_fraction_amended_witness :
    acceptSeq cexDist [⟨0, 0, 0⟩, ⟨0, 0, 4⟩, ⟨0, 0, 8⟩, ⟨0, 0, 115⟩, ⟨0, 0, 120⟩] = true ↔
      ((gapPoorCount [⟨0, 0, 0⟩, ⟨0, 0, 4⟩, ⟨0, 0, 8⟩, ⟨0, 0, 115⟩, ⟨0, 0, 120⟩] +
        speedPoorCount cexDist
          [⟨0, 0, 0⟩, ⟨0, 0, 4⟩, ⟨0, 0, 8⟩, ⟨0, 0, 115⟩, ⟨0, 0, 120⟩] : ℕ) : ℚ) /
        (([⟨(0:ℚ), (0:ℚ), (0:ℚ)⟩, ⟨0, 0, 4⟩, ⟨0, 0, 8⟩, ⟨0, 0, 115⟩,
          ⟨0, 0, 120⟩] : List TracePoint).length : ℚ) ≤
        MAXIMUM_POOR_MEASUREMENTS_PERCENT :=
  traceFilter_poor_fraction_amended cexDist _
    (by with_unfolding_all decide) (by with_unfolding_all decide)
    (by with_unfolding_all decide) (by with_unfolding_all decide)

/-- A degenerate distance model for the `traceFilterRun` witness. -/
def distZero : TracePoint → TracePoint → ℚ := fun _ _ => 0

/-- **C9**: the trace filter is an order-preserving subsequence
selection and is idempotent: whenever it runs without error, its output
is a sublist of the input (same order), and running the filter on its
own output returns that output unchanged. -/
theorem traceFilterRun_sublist_idempotent (dist : TracePoint → TracePoint → ℚ)
    (td out : List (List TracePoint))
    (h : traceFilterRun dist td = some out) :
    out.Sublist td ∧ traceFilterRun dist out = some out := by
  unfold traceFilterRun at h ⊢
  by_cases hall : td.all (fun s => !s.isEmpty)
  · rw [if_pos hall] at h
    obtain rfl : td.filter (acceptSeq dist) = out := by injection h
    have hsub : (td.filter (acceptSeq dist)).Sublist td := List.filter_sublist td
    refine ⟨hsub, ?_⟩
    have hall2 : (td.filter (acceptSeq dist)).all (fun s => !s.isEmpty) := by
      rw [List.all_eq_true] at hall ⊢
      exact fun s hs => hall s (hsub.mem hs)
    rw [if_pos hall2, List.filter_filter]
    simp
  · rw [if_neg hall] at h
    exact absurd h (by simp)

/-- Witness for `traceFilterRun_sublist_idempotent`: a single too-short
sequence is filtered out and the empty result is a fixed point. -/
theorem traceFilterRun_sublist_idempotent_witness :
    ([] : List (List TracePoint)).Sublist [[⟨0, 0, 0⟩]] ∧
      traceFilterRun distZero [] = some [] :=
  traceFilterRun_sublist_idempotent distZero [[⟨0, 0, 0⟩]] []
    (by with_unfolding_all decide)

/-- Every entry of a `popLow` result is either the corresponding input
entry or a filled value capped at `EXTRAP_MAX_SPEED`. -/
lemma popLow_get (v : ℤ) (i : ℕ) (slope : ℤ) :
    ∀ (stack : List ℕ) (s : List (Option ℤ)) (j : ℕ),
      (popLow v i slope stack s).get? j = s.get? j ∨
      ∃ w, (popLow v i slope stack s).get? j = some (some w) ∧ w ≤ EXTRAP_MAX_SPEED := by
  intro stack
  induction stack with
  | nil => intro s j; exact Or.inl rfl
  | cons k ks ih =>
    intro s j
    have hstep : popLow v i slope (k :: ks) s =
        popLow v i slope ks
          (s.set k (some (min (v - ((i : ℤ) - (k : ℤ)) * slope) EXTRAP_MAX_SPEED))) := rfl
    rw [hstep]
    rcases ih (s.set k (some (min (v - ((i : ℤ) - (k : ℤ)) * slope) EXTRAP_MAX_SPEED))) j with
      h | ⟨w, hw, hle⟩
    · by_cases hkj : k = j
      · subst hkj
        by_cases hk : k < s.length
        · right
          refine ⟨min (v - ((i : ℤ) - (k : ℤ)) * slope) EXTRAP_MAX_SPEED, ?_, min_le_right _ _⟩
          rw [h, List.get?_set_eq_of_lt _ hk]
        · left
          rw [h, List.set_eq_of_length_le (le_of_not_lt hk)]
      · left
        rw [h, List.get?_set_ne _ _ hkj]
    · exact Or.inr ⟨w, hw, hle⟩

/-- Every entry of a `popHigh` result is either the corresponding input
entry or a filled value floored at `EXTRAP_MIN_SPEED`. -/
lemma popHigh_get (v : ℤ) (i : ℕ) (slope : ℤ) :
    ∀ (stack : List ℕ) (s : List (Option ℤ)) (j : ℕ),
      (popHigh v i slope stack s).get? j = s.get? j ∨
      ∃ w, (popHigh v i slope stack s).get? j = some (some w) ∧ EXTRAP_MIN_SPEED ≤ w := by
  intro stack
  induction stack with
  | nil => intro s j; exact Or.inl rfl
  | cons k ks ih =>
    intro s j
    have hstep : popHigh v i slope (k :: ks) s =
        popHigh v i slope ks
          (s.set k (some (max (v + ((k : ℤ) - (i : ℤ)) * slope) EXTRAP_MIN_SPEED))) := rfl
    rw [hstep]
    rcases ih (s.set k (some (max (v + ((k : ℤ) - (i : ℤ)) * slope) EXTRAP_MIN_SPEED))) j with
      h | ⟨w, hw, hle⟩
    · by_cases hkj : k = j
      · subst hkj
        by_cases hk : k < s.length
        · right
          refine ⟨max (v + ((k : ℤ) - (i : ℤ)) * slope) EXTRAP_MIN_SPEED, ?_, le_max_right _ _⟩
          rw [h, List.get?_set_eq_of_lt _ hk]
        · left
          rw [h, List.set_eq_of_length_le (le_of_not_lt hk)]
      · left
        rw [h, List.get?_set_ne _ _ hkj]
    · exact Or.inr ⟨w, hw, hle⟩

/-- Every entry of a `lowExtrapLoop` result is either the corresponding
input entry or a filled value capped at `EXTRAP_MAX_SPEED`. -/
lemma lowExtrapLoop_get (s : List (Option ℤ)) :
    ∀ (is stack : List ℕ) (j : ℕ),
      (lowExtrapLoop s is stack).get? j = s.get? j ∨
      ∃ w, (lowExtrapLoop s is stack).get? j = some (some w) ∧ w ≤ EXTRAP_MAX_SPEED := by
  intro is
  induction is with
  | nil => intro stack j; exact Or.inl rfl
  | cons i rest ih =>
    intro stack j
    unfold lowExtrapLoop
    match hc : getCell s i with
    | none => exact ih (i :: stack) j
    | some v => exact popLow_get v i (getIntD s (i + 1) - v) stack s j

/-- Every entry of a `highExtrapLoop` result is either the corresponding
input entry or a filled value floored at `EXTRAP_MIN_SPEED`. -/
lemma highExtrapLoop_get (s : List (Option ℤ)) :
    ∀ (is stack : List ℕ) (j : ℕ),
      (highExtrapLoop s is stack).get? j = s.get? j ∨
      ∃ w, (highExtrapLoop s is stack).get? j = some (some w) ∧ EXTRAP_MIN_SPEED ≤ w := by
  intro is
  induction is with
  | nil => intro stack j; exact Or.inl rfl
  | cons i rest ih =>
    intro stack j
    unfold highExtrapLoop
    match hc : getCell s i with
    | none => exact ih (i :: stack) j
    | some v => exact popHigh_get v i (v - getIntD s (i - 1)) stack s j

/-- **C4 (amended)**: when the engine fills an array (at least 2 present
values, monotonicity guard passed), the result is the interpolation pass
followed by the two extrapolation loops; every entry filled by the
low-end extrapolation loop (empty after interpolation, filled after the
low loop) is at most 140 — but it is not floored at 10 — and every entry
filled by the high-end extrapolation loop is at least 10 — but it is not
capped at 140. -/
theorem interpExtrap_extrapolation_bounds (speeds : List (Option ℤ))
    (h2 : ¬ (indexesWithData speeds).length < 2)
    (hg : hasIncrease (valuesWithData speeds) = false) :
    interpExtrapArray speeds =
      highExtrapLoop (lowExtrapLoop (interpPhase speeds) (List.range speeds.length) [])
        (List.range speeds.length).reverse [] ∧
    (∀ j v, (interpPhase speeds).get? j = some none →
      (lowExtrapLoop (interpPhase speeds) (List.range speeds.length) []).get? j =
        some (some v) →
      v ≤ EXTRAP_MAX_SPEED) ∧
    (∀ j v,
      (lowExtrapLoop (interpPhase speeds) (List.range speeds.length) []).get? j =
        some none →
      (highExtrapLoop (lowExtrapLoop (interpPhase speeds) (List.range speeds.length) [])
        (List.range speeds.length).reverse []).get? j = some (some v) →
      EXTRAP_MIN_SPEED ≤ v) := by
  refine ⟨?_, ?_, ?_⟩
  · unfold interpExtrapArray
    rw [if_neg h2, if_neg (by rw [hg]; exact Bool.false_ne_true)]
  · intro j v hnone hfill
    rcases lowExtrapLoop_get (interpPhase speeds) (List.range speeds.length) [] j with
      h | ⟨w, hw, hle⟩
    · rw [h, hnone] at hfill
      exact absurd hfill (by simp)
    · rw [hw] at hfill
      obtain rfl : w = v := by injection hfill with h; injection h
      exact hle
  · intro j v hnone hfill
    rcases highExtrapLoop_get
        (lowExtrapLoop (interpPhase speeds) (List.range speeds.length) [])
        (List.range speeds.length).reverse [] j with
      h | ⟨w, hw, hle⟩
    · rw [h, hnone] at hfill
      exact absurd hfill (by simp)
    · rw [hw] at hfill
      obtain rfl : w = v := by injection hfill with h; injection h
      exact hle

/-- Witness for `interpExtrap_extrapolation_bounds` at the concrete
array `[None, 50, 40, None, None]`. -/
theorem interpExtrap_extrapolation_bounds_witness :
    interpExtrapArray [none, some 50, some 40, none, none] =
      highExtrapLoop
        (lowExtrapLoop (interpPhase [none, some 50, some 40, none, none])
          (List.range ([none, some 50, some 40, none, none] : List (Option ℤ)).length) [])
        (List.range ([none, some 50, some 40, none, none] : List (Option ℤ)).length).reverse
        [] ∧
    (∀ j v, (interpPhase [none, some 50, some 40, none, none]).get? j = some none →
      (lowExtrapLoop (interpPhase [none, some 50, some 40, none, none])
        (List.range ([none, some 50, some 40, none, none] : List (Option ℤ)).length)
        []).get? j = some (some v) →
      v ≤ EXTRAP_MAX_SPEED) ∧
    (∀ j v,
      (lowExtrapLoop (interpPhase [none, some 50, some 40, none, none])
        (List.range ([none, some 50, some 40, none, none] : List (Option ℤ)).length)
        []).get? j = some none →
      (highExtrapLoop
        (lowExtrapLoop (interpPhase [none, some 50, some 40, none, none])
          (List.range ([none, some 50, some 40, none, none] : List (Option ℤ)).length) [])
        (List.range ([none, some 50, some 40, none, none] : List (Option ℤ)).length).reverse
        []).get? j = some (some v) →
      EXTRAP_MIN_SPEED ≤ v) :=
  interpExtrap_extrapolation_bounds [none, some 50, some 40, none, none]
    (by with_unfolding_all decide) (by decide)

end Conflation
